import Mathlib

/-!
Shallow embedding of the quiz-solving agent (src/agent.py, src/tools.py,
src/main.py) and proofs of the specification claims.

External effects (the reasoning oracle, browser navigation, HTTP requests,
file writes, dynamic code execution, PDF extraction) are abstracted as
per-step outcome values supplied by an environment: each outcome is either
`.ok v` (the underlying operation returned `v`) or `.error e` (it raised an
exception whose `str()` is `e`).  Every piece of control flow in the Python
source — branch conditions, truncations, history updates, the `continue`
and `break` on submission results, and the `try/except` around the loop
body — is reproduced explicitly.
-/

namespace QuizAgent

/-- Outcome of an external side-effecting operation: a returned value or a
raised exception rendered as its message string. -/
abbrev Eff (α : Type) := Except String α

/-- Python string slicing `s[:n]` (by code points, as in Python). -/
def pyTake (s : String) (n : Nat) : String := ⟨s.data.take n⟩

/-- Python rendering of an optional string in an f-string:
`None` prints as the four characters `None`. -/
def pyStrOpt : Option String → String
  | some s => s
  | none => "None"

/-- Whether `sub` occurs at the front of `l`. -/
def startsWithChars : List Char → List Char → Bool
  | [], _ => true
  | _ :: _, [] => false
  | a :: as, b :: bs => a == b && startsWithChars as bs

/-- Whether `sub` occurs contiguously anywhere in `l`. -/
def containsChars (sub : List Char) : List Char → Bool
  | [] => startsWithChars sub []
  | b :: bs => startsWithChars sub (b :: bs) || containsChars sub bs

/-- Python `needle in hay` substring test, as used by `download_file`. -/
def pyIn (needle hay : String) : Bool := containsChars needle.data hay.data

/-- Python `s.upper()`: per-character uppercasing (the tool names are
ASCII). -/
def pyUpper (s : String) : String := ⟨s.data.map Char.toUpper⟩

/-! ## tools.py -/

/-- `tools.execute_python_code(code, text_input)`.  The `exec` of the
LLM-generated snippet is abstracted by `execEff`: on success the captured
stdout is returned, on exception the function returns the tagged error
string (tools.py lines 11-30). -/
def execute_python_code (code : Option String) (text_input : String)
    (execEff : Eff String) : String :=
  match code, text_input, execEff with
  | _, _, .ok out => out
  | _, _, .error e => "Error executing code: " ++ e

/-- `tools.scrape_page(page, url)`.  Navigation plus
`document.body.innerText` extraction is abstracted by `nav`; the success
result is truncated to 30000 characters, failures return the tagged error
string (tools.py lines 33-44). -/
def scrape_page (url : String) (nav : Eff String) : String :=
  match url, nav with
  | _, .ok text => pyTake text 30000
  | _, .error e => "Error scraping page: " ++ e

/-- The parts of an HTTP response that `download_file` inspects:
`response.headers.get('content-type', '')`. -/
structure HttpResponse where
  contentType : String
deriving DecidableEq, Repr

/-- `tools.download_file(url, filename)`.  `requests.get` is abstracted by
`getEff` and the file write by `writeEff`; extension inference from the
content type is reproduced verbatim (tools.py lines 47-66). -/
def download_file (url : Option String) (filename : String)
    (getEff : Eff HttpResponse) (writeEff : Eff Unit) : String :=
  match url, getEff with
  | _, .error e => "Error downloading: " ++ e
  | _, .ok resp =>
    let filename :=
      if pyIn "." filename then filename
      else if pyIn "pdf" resp.contentType then filename ++ ".pdf"
      else if pyIn "csv" resp.contentType then filename ++ ".csv"
      else filename ++ ".txt"
    match writeEff with
    | .error e => "Error downloading: " ++ e
    | .ok _ => "Success. File saved to " ++ filename

/-- `tools.read_pdf(filename)`.  Opening the file and accumulating
`page.extract_text()` over all pages is abstracted by `extract`; the
success result is truncated to 10000 characters (tools.py lines 69-80). -/
def read_pdf (filename : Option String) (extract : Eff String) : String :=
  match filename, extract with
  | _, .ok text => pyTake text 10000
  | _, .error e => "Error reading PDF: " ++ e

/-- The JSON object a quiz endpoint may answer with, as read through
`.get('correct')`, `.get('url')`, `.get('reason')`. -/
structure SubmitRes where
  correct : Option Bool
  url : Option String
  reason : Option String
deriving DecidableEq, Repr

/-- The parts of the `requests.post` response that `submit_quiz` inspects:
`res.json()` (`none` when parsing raises), `res.status_code`, `res.text`. -/
structure SubmitHttp where
  json : Option SubmitRes
  statusCode : Nat
  text : String
deriving DecidableEq, Repr

/-- Outcome of the `requests.post` call inside `submit_quiz`. -/
inductive PostOutcome
  | ok (resp : SubmitHttp)
  | exn (e : String)
deriving DecidableEq, Repr

/-- The dict shapes `submit_quiz` can return: the parsed JSON body, the
`{status, text}` fallback for non-JSON responses, or the `{error}` dict
for a failed request. -/
inductive SubmitDict
  | parsed (r : SubmitRes)
  | raw (status : Nat) (text : String)
  | errd (e : String)
deriving DecidableEq, Repr

/-- `tools.submit_quiz(submit_url, payload)` (tools.py lines 83-95). -/
def submit_quiz (submit_url : Option String) (post : PostOutcome) : SubmitDict :=
  match submit_url, post with
  | _, .exn e => .errd e
  | _, .ok resp =>
    match resp.json with
    | some r => .parsed r
    | none => .raw resp.statusCode resp.text

/-- Python `submit_res.get('correct')`: only the parsed-JSON dict can carry
the key; the `{status, text}` and `{error}` dicts yield `None`. -/
def SubmitDict.getCorrect : SubmitDict → Option Bool
  | .parsed r => r.correct
  | _ => none

/-- Python `submit_res.get('url')`. -/
def SubmitDict.getUrl : SubmitDict → Option String
  | .parsed r => r.url
  | _ => none

/-- Python `submit_res.get('reason')`. -/
def SubmitDict.getReason : SubmitDict → Option String
  | .parsed r => r.reason
  | _ => none

/-! ## agent.py -/

/-- A history entry: either the step record
`{"step": step, "tool": tool, "result": str(result)[:800]}` appended at
agent.py line 114, or the error record `{"error": str(e)}` appended at
line 118. -/
inductive HistoryEntry
  | stepRec (step : Nat) (tool : String) (result : String)
  | errRec (error : String)
deriving DecidableEq, Repr

/-- Python `entry['result']`.  A step record holds the key; an error
record holds only `"error"`, so the lookup raises `KeyError('result')`,
whose `str()` is the key's `repr`: `\x27result\x27`. -/
def HistoryEntry.getResult : HistoryEntry → Except String String
  | .stepRec _ _ r => .ok r
  | .errRec _ => .error "\x27result\x27"

/-- The action object parsed from the oracle's JSON output, read through
`action.get('tool')` and `args.get(...)`. -/
structure Action where
  tool : Option String
  url : Option String
  filename : Option String
  code : Option String
  answer : Option String
deriving DecidableEq, Repr

/-- Outcome of `model.generate_content` followed by `json.loads`: either a
raised exception (oracle failure or unparseable output) or a parsed
action object. -/
inductive OracleOut
  | exn (e : String)
  | action (a : Action)
deriving DecidableEq, Repr

/-- What the external world does during one loop iteration: the oracle's
output and the outcome of whichever adapter effect the step invokes. -/
structure StepEnv where
  oracle : OracleOut
  scrapeEff : Eff String
  downloadGet : Eff HttpResponse
  downloadWrite : Eff Unit
  pdfEff : Eff String
  pyEff : Eff String
  submitPost : PostOutcome

/-- Mutable loop state of `run_agent_loop`: `current_url` and `history`. -/
structure SessionState where
  current_url : String
  history : List HistoryEntry
deriving DecidableEq, Repr

/-- How the body of one iteration ends before the history update:
fall through to `history.append` with the dispatched tool name and result,
`continue` to the next quiz (agent.py line 106), or `break` (line 109). -/
inductive StepRes
  | appendRec (tool : String) (result : String)
  | advance (newUrl : String)
  | finished
deriving DecidableEq, Repr

/-- The `try`-body of one iteration of `run_agent_loop` (agent.py lines
58-111): oracle call and parse, case-insensitive tool dispatch, and the
submission state machine.  `Except.error` is a raised exception reaching
the `except` handler at line 116. -/
def runStepBody (env : StepEnv) (s : SessionState) : Except String StepRes :=
  match env.oracle with
  | .exn e => .error e
  | .action a =>
    let tool := pyUpper (a.tool.getD "")
    if tool == "SCRAPE" then
      .ok (.appendRec tool (scrape_page (a.url.getD s.current_url) env.scrapeEff))
    else if tool == "DOWNLOAD" then
      .ok (.appendRec tool
        (download_file a.url (a.filename.getD "data_file") env.downloadGet env.downloadWrite))
    else if tool == "READ_PDF" then
      .ok (.appendRec tool (read_pdf a.filename env.pdfEff))
    else if tool == "PYTHON" then
      match (match s.history.getLast? with
             | some entry => entry.getResult
             | none => .ok "") with
      | .error e => .error e
      | .ok last_text => .ok (.appendRec tool (execute_python_code a.code last_text env.pyEff))
    else if tool == "SUBMIT" then
      let submit_res := submit_quiz a.url env.submitPost
      if submit_res.getCorrect == some true then
        match submit_res.getUrl with
        | some u => if u == "" then .ok .finished else .ok (.advance u)
        | none => .ok .finished
      else
        .ok (.appendRec tool ("Submission failed. Reason: " ++ pyStrOpt submit_res.getReason))
    else
      .ok (.appendRec tool "")

/-- How one iteration hands control back to the `for` loop. -/
inductive StepOutcome
  | next (s : SessionState)
  | halt (s : SessionState)
deriving DecidableEq, Repr

/-- One full iteration of the loop: run the body, then either append the
step record (line 114), switch to the new quiz with cleared history
(lines 104-106), stop (line 109), or append the error record of the
caught exception (line 118). -/
def runStep (stepIdx : Nat) (env : StepEnv) (s : SessionState) : StepOutcome :=
  match runStepBody env s with
  | .ok (.appendRec tool result) =>
    .next ⟨s.current_url, s.history ++ [.stepRec stepIdx tool (pyTake result 800)]⟩
  | .ok (.advance u) => .next ⟨u, []⟩
  | .ok .finished => .halt s
  | .error e => .next ⟨s.current_url, s.history ++ [.errRec e]⟩

/-- The `for step in range(...)` loop, structurally recursive on the
remaining iteration budget.  Returns the final state together with the
number of iterations actually executed. -/
def loopFrom (envs : Nat → StepEnv) : Nat → Nat → SessionState → SessionState × Nat
  | _, 0, s => (s, 0)
  | stepIdx, r + 1, s =>
    match runStep stepIdx (envs stepIdx) s with
    | .halt s1 => (s1, 1)
    | .next s1 =>
      let p := loopFrom envs (stepIdx + 1) r s1
      (p.1, p.2 + 1)

/-- `agent.run_agent_loop(start_url, email, secret)`.  `ctx` abstracts
browser/context creation (agent.py lines 23-26): on failure the loop never
runs and the session aborts (`none`).  The credentials only feed the
submission payload, which is abstracted into `StepEnv.submitPost`.  The
loop bound is the literal `range(10)` of line 32. -/
def run_agent_loop (ctx : Eff Unit) (envs : Nat → StepEnv)
    (start_url email secret : String) : Option (SessionState × Nat) :=
  match ctx, email, secret with
  | .error _, _, _ => none
  | .ok _, _, _ => some (loopFrom envs 0 10 ⟨start_url, []⟩)

/-! ## main.py -/

/-- The request body of `POST /quiz` (main.py lines 17-21). -/
structure QuizRequest where
  email : String
  secret : String
  url : String
deriving DecidableEq, Repr

/-- The background task handed to `tasks.add_task`: a pending
`run_agent_loop(req.url, req.email, req.secret)` invocation. -/
structure AgentTask where
  start_url : String
  email : String
  secret : String
deriving DecidableEq, Repr

/-- Result of the `/quiz` endpoint: an `HTTPException` rejection, or an
accepted request carrying the launched background task and the immediate
JSON response. -/
inductive StartQuizResult
  | rejected (statusCode : Nat) (detail : String)
  | accepted (task : AgentTask) (message status : String)
deriving DecidableEq, Repr

/-- `main.start_quiz(req, tasks)` (main.py lines 27-43): reject with 403 on
secret mismatch before any task is scheduled, otherwise schedule the agent
task and return the immediate success response. -/
def start_quiz (mySecret : String) (req : QuizRequest) : StartQuizResult :=
  if req.secret != mySecret then
    .rejected 403 "Invalid Secret Key. Access Denied."
  else
    .accepted ⟨req.url, req.email, req.secret⟩
      "Agent task started successfully" "processing"

/-! ## Concrete environments used by witnesses and counterexamples -/

/-- An environment whose oracle call raises (e.g. unparseable output) and
whose every adapter effect fails. -/
def errEnv : StepEnv :=
  { oracle := .exn "boom"
  , scrapeEff := .error "down"
  , downloadGet := .error "down"
  , downloadWrite := .error "down"
  , pdfEff := .error "down"
  , pyEff := .error "down"
  , submitPost := .exn "down" }

/-- An environment issuing a SUBMIT that the endpoint answers with
`{correct: true, url: "Q2"}`. -/
def advEnv : StepEnv :=
  { errEnv with
    oracle := .action
      { tool := some "SUBMIT", url := some "http://host/submit"
      , filename := none, code := none, answer := some "42" }
  , submitPost := .ok { json := some { correct := some true, url := some "Q2", reason := none }
                      , statusCode := 200, text := "" } }

/-- An environment issuing an action with the unrecognized tool name
`NOOP`. -/
def noopEnv : StepEnv :=
  { errEnv with
    oracle := .action
      { tool := some "NOOP", url := none, filename := none, code := none, answer := none } }

/-- Environment schedule for the C2 counterexample: a correct advancing
submission at step 0, unknown-tool steps afterwards. -/
def cexEnvs : Nat → StepEnv := fun i => if i = 0 then advEnv else noopEnv

/-- An environment issuing a SUBMIT that the endpoint rejects with
`{correct: false, reason: "wrong"}`. -/
def failEnv : StepEnv :=
  { errEnv with
    oracle := .action
      { tool := some "SUBMIT", url := some "http://host/submit"
      , filename := none, code := none, answer := some "41" }
  , submitPost := .ok { json := some { correct := some false, url := none, reason := some "wrong" }
                      , statusCode := 200, text := "" } }

/-- An environment issuing a PYTHON action whose snippet would print
successfully. -/
def pyEnv : StepEnv :=
  { errEnv with
    oracle := .action
      { tool := some "PYTHON", url := none, filename := none
      , code := some "print(1)", answer := none }
  , pyEff := .ok "1" }

/-! ## General lemmas about the embedding -/

/-- Truncation produces at most `n` characters. -/
theorem pyTake_length_le (s : String) (n : Nat) : (pyTake s n).length ≤ n := by
  show (s.data.take n).length ≤ n
  rw [List.length_take]
  exact Nat.min_le_left _ _

/-- Truncation of a short enough string is the identity. -/
theorem pyTake_eq_self (s : String) (n : Nat) (h : s.data.length ≤ n) :
    pyTake s n = s := by
  simp [pyTake, List.take_of_length_le h]

/-- The loop never executes more iterations than its fuel. -/
theorem loopFrom_snd_le (envs : Nat → StepEnv) :
    ∀ (r stepIdx : Nat) (s : SessionState), (loopFrom envs stepIdx r s).2 ≤ r := by
  intro r
  induction r with
  | zero => intro stepIdx s; simp [loopFrom]
  | succ n ih =>
    intro stepIdx s
    cases hR : runStep stepIdx (envs stepIdx) s with
    | halt s1 => simp [loopFrom, hR]
    | next s1 => simpa [loopFrom, hR] using ih (stepIdx + 1) s1

/-- If no iteration ever breaks out of the loop, the whole fuel is used. -/
theorem loopFrom_snd_eq_of_no_halt (envs : Nat → StepEnv)
    (hnh : ∀ i s s1, runStep i (envs i) s ≠ .halt s1) :
    ∀ (r stepIdx : Nat) (s : SessionState), (loopFrom envs stepIdx r s).2 = r := by
  intro r
  induction r with
  | zero => intro stepIdx s; simp [loopFrom]
  | succ n ih =>
    intro stepIdx s
    cases hR : runStep stepIdx (envs stepIdx) s with
    | halt s1 => exact absurd hR (hnh stepIdx s s1)
    | next s1 => simp [loopFrom, hR, ih (stepIdx + 1) s1]

/-! ## Claims -/

/-- C1: For every session, the agent loop executes at most 10 steps; absent
a successful terminal SUBMIT (`break`, the only `.halt` source) or a
failure to create the browsing context (the `none` result), the loop
unconditionally terminates after exactly the fixed maximum step count of
10 and never runs indefinitely (the loop is structurally recursive on its
fuel). -/
theorem C1_step_budget (ctx : Eff Unit) (envs : Nat → StepEnv)
    (url email secret : String) :
    (∀ st n, run_agent_loop ctx envs url email secret = some (st, n) → n ≤ 10) ∧
    ((∀ i s s1, runStep i (envs i) s ≠ .halt s1) →
      ∀ st n, run_agent_loop ctx envs url email secret = some (st, n) → n = 10) := by
  constructor
  · intro st n h
    cases ctx with
    | error e => simp [run_agent_loop] at h
    | ok u =>
      simp only [run_agent_loop, Option.some.injEq] at h
      have hn : n = (loopFrom envs 0 10 ⟨url, []⟩).2 := (congrArg Prod.snd h).symm
      rw [hn]
      exact loopFrom_snd_le envs 10 0 ⟨url, []⟩
  · intro hnh st n h
    cases ctx with
    | error e => simp [run_agent_loop] at h
    | ok u =>
      simp only [run_agent_loop, Option.some.injEq] at h
      have hn : n = (loopFrom envs 0 10 ⟨url, []⟩).2 := (congrArg Prod.snd h).symm
      rw [hn]
      exact loopFrom_snd_eq_of_no_halt envs hnh 10 0 ⟨url, []⟩

/-- Witness for C1 at a concrete session in which every oracle call fails:
all 10 iterations run. -/
theorem C1_step_budget_witness : (10 : Nat) = 10 :=
  (C1_step_budget (.ok ()) (fun _ => errEnv) "Q1" "a@b" "s").2
    (fun i s s1 h => by simp [runStep, runStepBody, errEnv] at h)
    ⟨"Q1", List.replicate 10 (.errRec "boom")⟩ 10 (by decide)

/-- C2 counterexample: the claim says a correct advancing SUBMIT resets the
step counter to zero and grants a full fresh budget of 10 steps.  In the
concrete session `cexEnvs` the SUBMIT at step 0 advances to `Q2`, yet the
remaining run appends records numbered 1 through 9 (the counter did not
restart at 0) and the session executes 10 iterations in total, so the new
quiz received only the 9 steps left of the shared budget, not 10. -/
theorem C2_no_reset_counterexample :
    run_agent_loop (.ok ()) cexEnvs "Q1" "a@b" "s" =
      some (⟨"Q2",
        [.stepRec 1 "NOOP" "", .stepRec 2 "NOOP" "", .stepRec 3 "NOOP" ""
        , .stepRec 4 "NOOP" "", .stepRec 5 "NOOP" "", .stepRec 6 "NOOP" ""
        , .stepRec 7 "NOOP" "", .stepRec 8 "NOOP" "", .stepRec 9 "NOOP" ""]⟩, 10) := by
  decide

/-- C2 (amended): after a SUBMIT that returns correct=true with a next URL,
the loop continues on the new quiz with the next step index and only the
remaining iteration budget; neither the step counter nor the budget is
reset. -/
theorem C2_shared_budget (envs : Nat → StepEnv) (stepIdx r : Nat)
    (s : SessionState) (u : String)
    (h : runStepBody (envs stepIdx) s = .ok (.advance u)) :
    loopFrom envs stepIdx (r + 1) s =
      ((loopFrom envs (stepIdx + 1) r ⟨u, []⟩).1,
       (loopFrom envs (stepIdx + 1) r ⟨u, []⟩).2 + 1) := by
  simp [loopFrom, runStep, h]

/-- Witness for the amended C2 at the concrete session `cexEnvs`. -/
theorem C2_shared_budget_witness :
    loopFrom cexEnvs 0 10 ⟨"Q1", []⟩ =
      ((loopFrom cexEnvs 1 9 ⟨"Q2", []⟩).1, (loopFrom cexEnvs 1 9 ⟨"Q2", []⟩).2 + 1) :=
  C2_shared_budget cexEnvs 0 9 ⟨"Q1", []⟩ "Q2" rfl

/-- C3: when a SUBMIT action returns correct=true together with a non-empty
next URL `u`, the step ends with `current_url = u` and an empty history,
and no StepRecord for the SUBMIT step itself is appended (the `continue`
at agent.py line 106 skips the history update of line 114). -/
theorem C3_advance_resets_state (stepIdx : Nat) (env : StepEnv) (s : SessionState)
    (a : Action) (u : String)
    (ha : env.oracle = .action a)
    (ht : pyUpper (a.tool.getD "") = "SUBMIT")
    (hc : (submit_quiz a.url env.submitPost).getCorrect = some true)
    (hu : (submit_quiz a.url env.submitPost).getUrl = some u)
    (hne : u ≠ "") :
    runStep stepIdx env s = .next ⟨u, []⟩ := by
  simp only [runStep, runStepBody, ha, ht]
  simp [hc, hu, hne]

/-- Witness for C3: a correct submission advancing from `Q1` to `Q2` with a
non-empty prior history. -/
theorem C3_advance_resets_state_witness :
    runStep 5 advEnv ⟨"Q1", [.stepRec 0 "SCRAPE" "page text"]⟩ = .next ⟨"Q2", []⟩ :=
  C3_advance_resets_state 5 advEnv ⟨"Q1", [.stepRec 0 "SCRAPE" "page text"]⟩
    { tool := some "SUBMIT", url := some "http://host/submit"
    , filename := none, code := none, answer := some "42" }
    "Q2" rfl (by decide) rfl rfl (by decide)

/-- C4: each tool adapter is total.  The four text-returning adapters are
functions into `String` and on every failure outcome return the tagged
error-description string rather than propagating the exception;
`submit_quiz` always returns a structured dict: the parsed JSON body, the
status/raw-text fallback, or the error dict. -/
theorem C4_adapters_total :
    (∀ url e, scrape_page url (.error e) = "Error scraping page: " ++ e) ∧
    (∀ url fn e w, download_file url fn (.error e) w = "Error downloading: " ++ e) ∧
    (∀ url fn resp e, download_file url fn (.ok resp) (.error e) = "Error downloading: " ++ e) ∧
    (∀ fn e, read_pdf fn (.error e) = "Error reading PDF: " ++ e) ∧
    (∀ c t e, execute_python_code c t (.error e) = "Error executing code: " ++ e) ∧
    (∀ u e, submit_quiz u (.exn e) = .errd e) ∧
    (∀ u sc txt, submit_quiz u (.ok ⟨none, sc, txt⟩) = .raw sc txt) ∧
    (∀ u r sc txt, submit_quiz u (.ok ⟨some r, sc, txt⟩) = .parsed r) :=
  ⟨fun _ _ => rfl, fun _ _ _ _ => rfl, fun _ _ _ _ => rfl, fun _ _ => rfl,
   fun _ _ _ => rfl, fun _ _ => rfl, fun _ _ _ => rfl, fun _ _ _ _ => rfl⟩

/-- C5: when the oracle call or the JSON parse of its output raises (the
oracle produced no valid action object), the step appends the error-tagged
entry `{"error": str(e)}` to history and hands control back to the loop
with `.next`, so the session proceeds to the next step instead of
terminating. -/
theorem C5_malformed_oracle (stepIdx : Nat) (env : StepEnv) (s : SessionState)
    (e : String) (h : env.oracle = .exn e) :
    runStep stepIdx env s = .next ⟨s.current_url, s.history ++ [.errRec e]⟩ := by
  simp [runStep, runStepBody, h]

/-- Witness for C5: a failing oracle call on a mid-session state. -/
theorem C5_malformed_oracle_witness :
    runStep 2 errEnv ⟨"Q1", [.stepRec 1 "SCRAPE" "t"]⟩ =
      .next ⟨"Q1", [.stepRec 1 "SCRAPE" "t", .errRec "boom"]⟩ :=
  C5_malformed_oracle 2 errEnv ⟨"Q1", [.stepRec 1 "SCRAPE" "t"]⟩ "boom" rfl

/-- C6: tool-name matching is case-insensitive — two tool names with the
same uppercasing make the step behave identically — and an action whose
uppercased tool name is none of SCRAPE, DOWNLOAD, READ_PDF, PYTHON, SUBMIT
falls through every branch: the step is a non-fatal no-op recorded with the
empty string as its result, and the loop continues (`.next`). -/
theorem C6_case_insensitive_unknown_noop (stepIdx : Nat) (env : StepEnv)
    (s : SessionState) :
    (∀ (a : Action) (t t1 : String), a.tool = some t → pyUpper t = pyUpper t1 →
      runStep stepIdx { env with oracle := .action { a with tool := some t1 } } s =
        runStep stepIdx { env with oracle := .action a } s) ∧
    (∀ (a : Action) (t : String), a.tool = some t →
      pyUpper t ∉ (["SCRAPE", "DOWNLOAD", "READ_PDF", "PYTHON", "SUBMIT"] : List String) →
      runStep stepIdx { env with oracle := .action a } s =
        .next ⟨s.current_url, s.history ++ [.stepRec stepIdx (pyUpper t) ""]⟩) := by
  obtain ⟨o, f1, f2, f3, f4, f5, f6⟩ := env
  constructor
  · intro a t t1 h1 h2
    obtain ⟨tl, au, af, ac, aa⟩ := a
    cases h1
    simp only [runStep, runStepBody, Option.getD_some]
    rw [h2]
  · intro a t h1 h2
    obtain ⟨tl, au, af, ac, aa⟩ := a
    cases h1
    simp only [List.mem_cons, List.not_mem_nil, or_false, not_or] at h2
    obtain ⟨n1, n2, n3, n4, n5⟩ := h2
    simp [runStep, runStepBody, n1, n2, n3, n4, n5, pyTake]

/-- Witness for C6: the tool names `noop` and `NOOP` behave identically,
and the unknown name `NOOP` produces a no-op step record with empty
result. -/
theorem C6_case_insensitive_unknown_noop_witness :
    runStep 3 { noopEnv with oracle := .action ⟨some "noop", none, none, none, none⟩ }
      ⟨"Q1", []⟩ =
      runStep 3 { noopEnv with oracle := .action ⟨some "NOOP", none, none, none, none⟩ }
      ⟨"Q1", []⟩ ∧
    runStep 3 { noopEnv with oracle := .action ⟨some "NOOP", none, none, none, none⟩ }
      ⟨"Q1", []⟩ = .next ⟨"Q1", [.stepRec 3 (pyUpper "NOOP") ""]⟩ :=
  ⟨(C6_case_insensitive_unknown_noop 3 noopEnv ⟨"Q1", []⟩).1
      ⟨some "NOOP", none, none, none, none⟩ "NOOP" "noop" rfl (by decide),
   (C6_case_insensitive_unknown_noop 3 noopEnv ⟨"Q1", []⟩).2
      ⟨some "NOOP", none, none, none, none⟩ "NOOP" rfl (by decide)⟩

/-- C7: when a SUBMIT action's response carries correct=false and a reason
`r`, the history gains exactly one entry, a step record whose result text
is `Submission failed. Reason: r` (subject to the general 800-character
record truncation, which is the identity whenever the reason fits), and
the step hands control back with `.next`, so the session continues. -/
theorem C7_submission_failed_feedback (stepIdx : Nat) (env : StepEnv)
    (s : SessionState) (a : Action) (r : String)
    (ha : env.oracle = .action a)
    (ht : pyUpper (a.tool.getD "") = "SUBMIT")
    (hc : (submit_quiz a.url env.submitPost).getCorrect = some false)
    (hr : (submit_quiz a.url env.submitPost).getReason = some r) :
    runStep stepIdx env s =
      .next ⟨s.current_url,
        s.history ++
          [.stepRec stepIdx "SUBMIT" (pyTake ("Submission failed. Reason: " ++ r) 800)]⟩ ∧
    (r.length ≤ 773 →
      pyTake ("Submission failed. Reason: " ++ r) 800 = "Submission failed. Reason: " ++ r) := by
  constructor
  · simp only [runStep, runStepBody, ha, ht]
    simp [hc, hr, pyStrOpt]
  · intro hlen
    apply pyTake_eq_self
    rw [String.data_append]
    have h27 : ("Submission failed. Reason: " : String).data.length = 27 := by decide
    have hr800 : r.data.length ≤ 773 := hlen
    simp only [List.length_append, h27]
    omega

/-- Witness for C7: a rejected submission whose reason is `wrong`. -/
theorem C7_submission_failed_feedback_witness :
    runStep 1 failEnv ⟨"Q1", []⟩ =
      .next ⟨"Q1",
        [.stepRec 1 "SUBMIT" (pyTake ("Submission failed. Reason: " ++ "wrong") 800)]⟩ ∧
    pyTake ("Submission failed. Reason: " ++ "wrong") 800 =
      "Submission failed. Reason: " ++ "wrong" :=
  ⟨(C7_submission_failed_feedback 1 failEnv ⟨"Q1", []⟩
      { tool := some "SUBMIT", url := some "http://host/submit"
      , filename := none, code := none, answer := some "41" }
      "wrong" rfl (by decide) rfl rfl).1,
   (C7_submission_failed_feedback 1 failEnv ⟨"Q1", []⟩
      { tool := some "SUBMIT", url := some "http://host/submit"
      , filename := none, code := none, answer := some "41" }
      "wrong" rfl (by decide) rfl rfl).2 (by decide)⟩

/-- C9: the launcher rejects any request whose secret differs from the
configured expected secret with a 403 authorization error and schedules no
agent task; a request whose secret matches is accepted, the agent task is
scheduled with the request's url/email/secret, and the immediate success
response is returned. -/
theorem C9_secret_gate (mySecret : String) (req : QuizRequest) :
    (req.secret ≠ mySecret →
      start_quiz mySecret req = .rejected 403 "Invalid Secret Key. Access Denied.") ∧
    (req.secret = mySecret →
      start_quiz mySecret req =
        .accepted ⟨req.url, req.email, req.secret⟩
          "Agent task started successfully" "processing") := by
  constructor <;> intro h <;> simp [start_quiz, h]

/-- Witness for C9: the default secret `elephant` rejects `hunter2` and
accepts itself. -/
theorem C9_secret_gate_witness :
    start_quiz "elephant" ⟨"a@b", "hunter2", "Q1"⟩ =
      .rejected 403 "Invalid Secret Key. Access Denied." ∧
    start_quiz "elephant" ⟨"a@b", "elephant", "Q1"⟩ =
      .accepted ⟨"Q1", "a@b", "elephant"⟩ "Agent task started successfully" "processing" :=
  ⟨(C9_secret_gate "elephant" ⟨"a@b", "hunter2", "Q1"⟩).1 (by decide),
   (C9_secret_gate "elephant" ⟨"a@b", "elephant", "Q1"⟩).2 rfl⟩

/-- C10: when the most recent history entry is an error record (which has
only an `error` key), a PYTHON action evaluates `history[-1]['result']`
before running the snippet; the lookup raises `KeyError('result')`, which
the loop catches and records as another error-tagged entry — and the
snippet outcome is irrelevant to the step's result, i.e. the snippet is
never executed in the step immediately following a soft error. -/
theorem C10_python_blocked_after_error (stepIdx : Nat) (env : StepEnv)
    (s : SessionState) (a : Action) (m : String)
    (ha : env.oracle = .action a)
    (ht : pyUpper (a.tool.getD "") = "PYTHON")
    (hl : s.history.getLast? = some (.errRec m)) :
    runStep stepIdx env s =
      .next ⟨s.current_url, s.history ++ [.errRec "\x27result\x27"]⟩ ∧
    (∀ eff : Eff String, runStep stepIdx { env with pyEff := eff } s =
      runStep stepIdx env s) := by
  obtain ⟨o, f1, f2, f3, f4, f5, f6⟩ := env
  simp only at ha
  constructor
  · simp only [runStep, runStepBody, ha, ht]
    simp [hl, HistoryEntry.getResult]
  · intro eff
    simp only [runStep, runStepBody, ha, ht]
    simp [hl, HistoryEntry.getResult]

/-- Witness for C10: a PYTHON action right after a failed step, with a
snippet effect that would have succeeded. -/
theorem C10_python_blocked_after_error_witness :
    runStep 4 pyEnv ⟨"Q1", [.errRec "boom"]⟩ =
      .next ⟨"Q1", [.errRec "boom", .errRec "\x27result\x27"]⟩ ∧
    runStep 4 { pyEnv with pyEff := .ok "other" } ⟨"Q1", [.errRec "boom"]⟩ =
      runStep 4 pyEnv ⟨"Q1", [.errRec "boom"]⟩ :=
  ⟨(C10_python_blocked_after_error 4 pyEnv ⟨"Q1", [.errRec "boom"]⟩
      { tool := some "PYTHON", url := none, filename := none
      , code := some "print(1)", answer := none }
      "boom" rfl (by decide) rfl).1,
   (C10_python_blocked_after_error 4 pyEnv ⟨"Q1", [.errRec "boom"]⟩
      { tool := some "PYTHON", url := none, filename := none
      , code := some "print(1)", answer := none }
      "boom" rfl (by decide) rfl).2 (.ok "other")⟩

/-- C8: the page text returned by the SCRAPE adapter is at most 30000
characters and the extracted text returned by the READ_PDF adapter is at
most 10000 characters, for every url/filename and every page or document
text. -/
theorem C8_truncation_caps :
    (∀ (url text : String), (scrape_page url (.ok text)).length ≤ 30000) ∧
    (∀ (fn : Option String) (text : String), (read_pdf fn (.ok text)).length ≤ 10000) :=
  ⟨fun _ text => pyTake_length_le text 30000, fun _ text => pyTake_length_le text 10000⟩

end QuizAgent
